import Mathlib

/-!
Shallow embedding of the Dapr MCP agent application (src/app.py).

The script wires a Chainlit chat front-end to a Dapr agent plus one or two
MCP tool clients.  Process-wide mutable state holds the current agent and
the two client handles; `init_agent` (re)builds them, and the lifecycle
callbacks (`on_chat_start`, `on_message`, `on_chat_end`, `on_reset_action`,
`on_exit_action`) read and update that state.

External collaborators (the MCP clients' connect/close/list-tools calls,
the filesystem holding the prompt files, the agent framework's constructor
and `run`) are modelled by an explicit `World` of behaviours; the callbacks
are pure functions from configuration, world and state to a new state, a
trace of external calls, and the list of chat messages sent.  MCPClient
and Agent instances receive fresh identities from an allocation counter in
the state, so that instance replacement is observable.
-/

/-- Outcome of an external `MCPClient.close()` call: normal return,
a `RuntimeError` (the invalid-state class the callers catch), or any
other exception class (which the callers do not catch). -/
inductive CloseOutcome where
  | ok : CloseOutcome
  | runtimeError : String → CloseOutcome
  | otherError : String → CloseOutcome
deriving DecidableEq, Repr

/-- Module-level configuration of app.py, read from the environment. -/
structure Config where
  CB_MCP_SERVER_URL : String
  PG_MCP_SERVER_URL : String
  CB_MCP_ACTIVE : Bool
  PG_MCP_ACTIVE : Bool
  CB_BUCKET_NAME : String
deriving DecidableEq, Repr

/-- The Agent object constructed by `init_agent` (name="DBAgent",
role="Database Expert", one instruction string, aggregated tool list),
tagged with an allocation identity. -/
structure AgentObj where
  id : Nat
  name : String
  role : String
  instructions : List String
  tools : List String
deriving DecidableEq, Repr

/-- Process-wide mutable state of app.py: the globals `agent`,
`cb_mcp_client`, `pg_mcp_client` (clients are represented by their
allocation identity), plus the allocation counter. -/
structure AppState where
  agent : Option AgentObj
  cb_mcp_client : Option Nat
  pg_mcp_client : Option Nat
  nextId : Nat
deriving DecidableEq, Repr

/-- State at process start: all three globals are None. -/
def AppState.initial : AppState := ⟨none, none, none, 0⟩

/-- Trace events recording the calls this script makes to external
collaborators: closing a client, a connect_sse call, a call to agent.run. -/
inductive Ev where
  | closeCall : Nat → Ev
  | connectCall : String → String → Ev
  | agentRunCall : Nat → String → Ev
deriving DecidableEq, Repr

/-- Behaviour of the external collaborators: what close() does on each
client, whether each backend's connect_sse succeeds, the tools each
backend reports, the contents of the two prompt files (`none` = file
missing), whether the Agent/DaprChatClient construction succeeds, and
what `agent.run` returns (`Except` error = raised exception; the payload
`Option String` is the response's `content` field, `none` = null). -/
structure World where
  closeOutcome : Nat → CloseOutcome
  connectCB : Except String Unit
  connectPG : Except String Unit
  cbTools : List String
  pgTools : List String
  basePromptFile : Option String
  cbPromptFile : Option String
  agentCtor : Except String Unit
  runBehavior : Nat → String → Except String (Option String)

/-- `load_system_prompt` (app.py lines 31-44): read
prompts/system_prompt.txt (a missing base file raises, modelled as an
error); if CB_MCP_ACTIVE and prompts/couchbase_prompt.txt exists, append
it after a blank-line separator, otherwise return the base text alone. -/
def load_system_prompt (cfg : Config) (w : World) : Except String String :=
  match w.basePromptFile with
  | none => .error "FileNotFoundError: system_prompt.txt"
  | some base =>
    if cfg.CB_MCP_ACTIVE then
      match w.cbPromptFile with
      | some cb => .ok (base ++ "\n\n" ++ cb)
      | none => .ok base
    else .ok base

/-- One iteration of the cleanup loop `for client in [cb, pg]` in
`init_agent` / `on_chat_end`: a None handle is skipped; otherwise close()
is called, a RuntimeError is caught and discarded (`except RuntimeError:
pass`), and any other exception propagates. -/
def closeOne (w : World) (c : Option Nat) : List Ev × Except String Unit :=
  match c with
  | none => ([], .ok ())
  | some i =>
    match w.closeOutcome i with
    | .ok => ([.closeCall i], .ok ())
    | .runtimeError _ => ([.closeCall i], .ok ())
    | .otherError m => ([.closeCall i], .error m)

/-- Result of running `init_agent`: the final process-wide state, the
trace of external calls made, and normal return vs a raised exception. -/
structure StepResult where
  state : AppState
  trace : List Ev
  result : Except String Unit
deriving Repr

/-- `init_agent` (app.py lines 47-93), step for step:
close both existing clients (swallowing RuntimeError only), null out all
three globals, then for each active backend assign a freshly constructed
MCPClient to its global and call connect_sse (so the global is already
set when connect raises), raise "No DB available ..." when both flags are
false, aggregate the active clients' tools in cb-then-pg order, evaluate
`load_system_prompt`, construct the DaprChatClient/Agent, and finally
assign the new Agent to the `agent` global. -/
def init_agent (cfg : Config) (w : World) (s0 : AppState) : StepResult :=
  match closeOne w s0.cb_mcp_client with
  | (t1, .error e) => ⟨s0, t1, .error e⟩
  | (t1, .ok _) =>
    match closeOne w s0.pg_mcp_client with
    | (t2, .error e) => ⟨s0, t1 ++ t2, .error e⟩
    | (t2, .ok _) =>
      let tc := t1 ++ t2
      let s1 : AppState :=
        { s0 with agent := none, cb_mcp_client := none, pg_mcp_client := none }
      let cbStep : AppState × List Ev × Except String Unit :=
        if cfg.CB_MCP_ACTIVE then
          ({ s1 with cb_mcp_client := some s1.nextId, nextId := s1.nextId + 1 },
           [.connectCall "couchbase" cfg.CB_MCP_SERVER_URL], w.connectCB)
        else (s1, [], .ok ())
      match cbStep with
      | (s2, t3, .error e) => ⟨s2, tc ++ t3, .error e⟩
      | (s2, t3, .ok _) =>
        let pgStep : AppState × List Ev × Except String Unit :=
          if cfg.PG_MCP_ACTIVE then
            ({ s2 with pg_mcp_client := some s2.nextId, nextId := s2.nextId + 1 },
             [.connectCall "postgres" cfg.PG_MCP_SERVER_URL], w.connectPG)
          else (s2, [], .ok ())
        match pgStep with
        | (s3, t4, .error e) => ⟨s3, tc ++ t3 ++ t4, .error e⟩
        | (s3, t4, .ok _) =>
          let t := tc ++ t3 ++ t4
          if !cfg.CB_MCP_ACTIVE && !cfg.PG_MCP_ACTIVE then
            ⟨s3, t,
             .error "No DB available - both CB_MCP_ACTIVE and PG_MCP_ACTIVE are false"⟩
          else
            let all_tools :=
              (match s3.cb_mcp_client with
               | some _ => w.cbTools
               | none => []) ++
              (match s3.pg_mcp_client with
               | some _ => w.pgTools
               | none => [])
            match load_system_prompt cfg w with
            | .error e => ⟨s3, t, .error e⟩
            | .ok prompt =>
              match w.agentCtor with
              | .error e => ⟨s3, t, .error e⟩
              | .ok _ =>
                let a : AgentObj :=
                  ⟨s3.nextId, "DBAgent", "Database Expert", [prompt], all_tools⟩
                ⟨{ s3 with agent := some a, nextId := s3.nextId + 1 }, t, .ok ()⟩

/-- The status string sent by `on_chat_start` on success:
`"Connected to: " + ", ".join(status_parts) + ". Ask me anything!"`. -/
def renderStatus (parts : List String) : String :=
  "Connected to: " ++ String.intercalate ", " parts ++ ". Ask me anything!"

/-- `on_chat_start` (app.py lines 96-120): run `init_agent`; on success
build the status parts from the live clients (calling get_all_tools
again for the counts) and send the status message; on any exception send
"Failed to connect to MCP servers: ...". -/
def on_chat_start (cfg : Config) (w : World) (s0 : AppState) :
    AppState × List Ev × List String :=
  let r := init_agent cfg w s0
  match r.result with
  | .error e => (r.state, r.trace, ["Failed to connect to MCP servers: " ++ e])
  | .ok _ =>
    let parts :=
      (match r.state.cb_mcp_client with
       | some _ => ["Couchbase MCP (" ++ toString w.cbTools.length ++ " tools)"]
       | none => []) ++
      (match r.state.pg_mcp_client with
       | some _ => ["PostgreSQL MCP (" ++ toString w.pgTools.length ++ " tools)"]
       | none => [])
    (r.state, r.trace, [renderStatus parts])

/-- `on_chat_end` (app.py lines 123-134): close both clients (swallowing
RuntimeError only) and set both client globals to None; the `agent`
global is not touched. -/
def on_chat_end (w : World) (s0 : AppState) :
    AppState × List Ev × Except String Unit :=
  match closeOne w s0.cb_mcp_client with
  | (t1, .error e) => (s0, t1, .error e)
  | (t1, .ok _) =>
    match closeOne w s0.pg_mcp_client with
    | (t2, .error e) => (s0, t1 ++ t2, .error e)
    | (t2, .ok _) =>
      ({ s0 with cb_mcp_client := none, pg_mcp_client := none },
       t1 ++ t2, .ok ())

/-- `on_message` (app.py lines 137-148): when the `agent` global is None
send the fixed not-ready notice and return; otherwise call agent.run and
send `response.content or "No response generated."` (the fallback fires
for a null and for an empty content), catching any exception as an
"Error: ..." message.  The globals are never written. -/
def on_message (w : World) (s : AppState) (text : String) :
    AppState × List Ev × List String :=
  match s.agent with
  | none => (s, [], ["Agent not ready. Please refresh the page."])
  | some a =>
    match w.runBehavior a.id text with
    | .error e => (s, [.agentRunCall a.id text], ["Error: " ++ e])
    | .ok content =>
      let rendered :=
        match content with
        | none => "No response generated."
        | some c => if c = "" then "No response generated." else c
      (s, [.agentRunCall a.id text], [rendered])

/-- An ASCII single quote, used in the reset confirmation message. -/
def squoteChar : String := String.singleton (Char.ofNat 39)

/-- `on_reset_action` (app.py lines 151-159): announce the reset, re-run
`init_agent` in full, then report success (naming the bucket) or the
caught exception. -/
def on_reset_action (cfg : Config) (w : World) (s0 : AppState) :
    AppState × List Ev × List String :=
  let r := init_agent cfg w s0
  match r.result with
  | .ok _ =>
    (r.state, r.trace,
     ["🔄 Resetting agent...",
      "✅ Agent reset! Ready to query " ++ squoteChar ++ cfg.CB_BUCKET_NAME ++ squoteChar ++ "."])
  | .error e =>
    (r.state, r.trace, ["🔄 Resetting agent...", "❌ Reset failed: " ++ e])

/-- Result of the exit action: state, external-call trace, messages sent
before termination, and the process exit code (`some c` = the process
terminated with code c). -/
structure ExitResult where
  state : AppState
  trace : List Ev
  messages : List String
  exitCode : Option Nat
deriving Repr

/-- `on_exit_action` (app.py lines 188-197): send the shutdown message
and terminate immediately via `os._exit(0)`; no close() is invoked and
the state is left as is. -/
def on_exit_action (s : AppState) : ExitResult :=
  ⟨s, [], ["🚪 Shutting down application..."], some 0⟩

/-- All instance identities recorded in a state are below its allocation
counter (holds for `AppState.initial` and is preserved by the callbacks). -/
def idsBelow (s : AppState) : Prop :=
  (∀ a, s.agent = some a → a.id < s.nextId) ∧
  (∀ i, s.cb_mcp_client = some i → i < s.nextId) ∧
  (∀ i, s.pg_mcp_client = some i → i < s.nextId)

/-! ### Helper lemmas -/

theorem closeOne_snd_ok (w : World) (c : Option Nat)
    (hclose : ∀ i m, w.closeOutcome i ≠ CloseOutcome.otherError m) :
    (closeOne w c).2 = .ok () := by
  cases c with
  | none => rfl
  | some i =>
    cases h : w.closeOutcome i with
    | ok => simp [closeOne, h]
    | runtimeError m => simp [closeOne, h]
    | otherError m => exact absurd h (hclose i m)

theorem closeOne_trace_closes (w : World) (c : Option Nat) :
    ∀ ev ∈ (closeOne w c).1, ∃ i, ev = Ev.closeCall i := by
  cases c with
  | none => simp [closeOne]
  | some i =>
    cases h : w.closeOutcome i <;> simp [closeOne, h]

/-! ### C1 -/

def c1cfg : Config := ⟨"cbUrl", "pgUrl", true, true, "travel-sample"⟩

def c1world : World :=
  ⟨fun _ => .ok, .ok (), .error "connection refused", ["t1"], ["t2", "t3"],
   some "BASE", none, .ok (), fun _ _ => .ok (some "hi")⟩

/-- C1 counterexample: with both backends active, Couchbase connect
succeeding and PostgreSQL connect raising, `init_agent` raises but the
process-wide state is not fully null — both client globals remain set. -/
theorem C1_counterexample :
    (init_agent c1cfg c1world AppState.initial).result = .error "connection refused" ∧
    (init_agent c1cfg c1world AppState.initial).state.cb_mcp_client = some 0 ∧
    (init_agent c1cfg c1world AppState.initial).state.pg_mcp_client = some 1 := by
  refine ⟨rfl, rfl, rfl⟩

/-- C1 (amended): when cleanup's close calls raise at most the tolerated
RuntimeError class, a failing `init_agent` always leaves the `agent`
global null (so no partially-initialized agent is exposed), although
client handles assigned before the failing step may remain non-null. -/
theorem C1_init_error_agent_null (cfg : Config) (w : World) (s : AppState) (e : String)
    (hclose : ∀ i m, w.closeOutcome i ≠ CloseOutcome.otherError m)
    (herr : (init_agent cfg w s).result = .error e) :
    (init_agent cfg w s).state.agent = none := by
  have hcb := closeOne_snd_ok w s.cb_mcp_client hclose
  have hpg := closeOne_snd_ok w s.pg_mcp_client hclose
  rcases hc1 : closeOne w s.cb_mcp_client with ⟨t1, r1⟩
  rcases hc2 : closeOne w s.pg_mcp_client with ⟨t2, r2⟩
  rw [hc1] at hcb
  rw [hc2] at hpg
  simp only at hcb hpg
  subst hcb hpg
  cases hCB : cfg.CB_MCP_ACTIVE <;> cases hPG : cfg.PG_MCP_ACTIVE <;>
    cases hccb : w.connectCB <;> cases hcpg : w.connectPG <;>
    cases hbp : w.basePromptFile <;> cases hcp : w.cbPromptFile <;>
    cases hac : w.agentCtor <;>
    simp_all [init_agent, load_system_prompt, hc1, hc2]

theorem C1_init_error_agent_null_witness :
    (init_agent c1cfg c1world AppState.initial).state.agent = none :=
  C1_init_error_agent_null c1cfg c1world AppState.initial "connection refused"
    (fun i m h => by simp [c1world] at h) rfl

/-! ### C2 -/

def c2cfg : Config := ⟨"cbUrl", "pgUrl", false, false, "travel-sample"⟩

def c2world : World :=
  ⟨fun _ => .ok, .ok (), .ok (), ["t1"], ["t2"],
   some "BASE", none, .ok (), fun _ _ => .ok (some "hi")⟩

/-- C2: when both active flags are false, `init_agent` raises the
explicit "No DB available" error, attempts no connect_sse call, and
leaves agent and both client globals null. -/
theorem C2_no_backend (cfg : Config) (w : World) (s : AppState)
    (hclose : ∀ i m, w.closeOutcome i ≠ CloseOutcome.otherError m)
    (hcb : cfg.CB_MCP_ACTIVE = false) (hpg : cfg.PG_MCP_ACTIVE = false) :
    (init_agent cfg w s).result =
      .error "No DB available - both CB_MCP_ACTIVE and PG_MCP_ACTIVE are false" ∧
    (init_agent cfg w s).state.agent = none ∧
    (init_agent cfg w s).state.cb_mcp_client = none ∧
    (init_agent cfg w s).state.pg_mcp_client = none ∧
    ∀ n u, Ev.connectCall n u ∉ (init_agent cfg w s).trace := by
  have hcbo := closeOne_snd_ok w s.cb_mcp_client hclose
  have hpgo := closeOne_snd_ok w s.pg_mcp_client hclose
  have htr1 := closeOne_trace_closes w s.cb_mcp_client
  have htr2 := closeOne_trace_closes w s.pg_mcp_client
  rcases hc1 : closeOne w s.cb_mcp_client with ⟨t1, r1⟩
  rcases hc2 : closeOne w s.pg_mcp_client with ⟨t2, r2⟩
  rw [hc1] at hcbo htr1
  rw [hc2] at hpgo htr2
  simp only at hcbo hpgo htr1 htr2
  subst hcbo hpgo
  have heq : init_agent cfg w s =
      ⟨{ s with agent := none, cb_mcp_client := none, pg_mcp_client := none },
       t1 ++ t2,
       .error "No DB available - both CB_MCP_ACTIVE and PG_MCP_ACTIVE are false"⟩ := by
    simp [init_agent, hc1, hc2, hcb, hpg]
  rw [heq]
  refine ⟨rfl, rfl, rfl, rfl, ?_⟩
  intro n u h
  rcases List.mem_append.mp h with h1 | h2
  · rcases htr1 _ h1 with ⟨i, hi⟩
    exact Ev.noConfusion hi
  · rcases htr2 _ h2 with ⟨i, hi⟩
    exact Ev.noConfusion hi

theorem C2_no_backend_witness :
    (init_agent c2cfg c2world AppState.initial).result =
      .error "No DB available - both CB_MCP_ACTIVE and PG_MCP_ACTIVE are false" ∧
    (init_agent c2cfg c2world AppState.initial).state.agent = none ∧
    (init_agent c2cfg c2world AppState.initial).state.cb_mcp_client = none ∧
    (init_agent c2cfg c2world AppState.initial).state.pg_mcp_client = none ∧
    ∀ n u, Ev.connectCall n u ∉ (init_agent c2cfg c2world AppState.initial).trace :=
  C2_no_backend c2cfg c2world AppState.initial
    (fun i m h => by simp [c2world] at h) rfl rfl

/-! ### C3 -/

def okcfg : Config := ⟨"cbUrl", "pgUrl", true, true, "travel-sample"⟩

def okworld : World :=
  ⟨fun _ => .ok, .ok (), .ok (), ["t1"], ["t2", "t3"],
   some "BASE", some "CB", .ok (), fun _ _ => .ok (some "hi")⟩

/-- C3: on every successful initialization the agent's tool list is the
Couchbase tools followed by the PostgreSQL tools (active backends only),
its length is the sum of the per-backend counts, and the chat-start
status message reports exactly those per-backend counts. -/
theorem C3_tools_aggregation (cfg : Config) (w : World) (s : AppState)
    (hok : (init_agent cfg w s).result = .ok ()) :
    ∃ a, (init_agent cfg w s).state.agent = some a ∧
      a.tools = (if cfg.CB_MCP_ACTIVE then w.cbTools else []) ++
                (if cfg.PG_MCP_ACTIVE then w.pgTools else []) ∧
      a.tools.length = (if cfg.CB_MCP_ACTIVE then w.cbTools.length else 0) +
                       (if cfg.PG_MCP_ACTIVE then w.pgTools.length else 0) ∧
      (on_chat_start cfg w s).2.2 =
        [renderStatus
          ((if cfg.CB_MCP_ACTIVE then
              ["Couchbase MCP (" ++ toString w.cbTools.length ++ " tools)"]
            else []) ++
           (if cfg.PG_MCP_ACTIVE then
              ["PostgreSQL MCP (" ++ toString w.pgTools.length ++ " tools)"]
            else []))] := by
  rcases hc1 : closeOne w s.cb_mcp_client with ⟨t1, r1⟩
  rcases hc2 : closeOne w s.pg_mcp_client with ⟨t2, r2⟩
  cases r1 with
  | error e => simp [init_agent, hc1] at hok
  | ok u =>
  cases u
  cases r2 with
  | error e => simp [init_agent, hc1, hc2] at hok
  | ok u =>
  cases u
  cases hCB : cfg.CB_MCP_ACTIVE <;> cases hPG : cfg.PG_MCP_ACTIVE <;>
    cases hccb : w.connectCB <;> cases hcpg : w.connectPG <;>
    cases hbp : w.basePromptFile <;> cases hcp : w.cbPromptFile <;>
    cases hac : w.agentCtor <;>
    simp_all [init_agent, on_chat_start, load_system_prompt, renderStatus]

theorem C3_tools_aggregation_witness :
    ∃ a, (init_agent okcfg okworld AppState.initial).state.agent = some a ∧
      a.tools = (if okcfg.CB_MCP_ACTIVE then okworld.cbTools else []) ++
                (if okcfg.PG_MCP_ACTIVE then okworld.pgTools else []) ∧
      a.tools.length =
        (if okcfg.CB_MCP_ACTIVE then okworld.cbTools.length else 0) +
        (if okcfg.PG_MCP_ACTIVE then okworld.pgTools.length else 0) ∧
      (on_chat_start okcfg okworld AppState.initial).2.2 =
        [renderStatus
          ((if okcfg.CB_MCP_ACTIVE then
              ["Couchbase MCP (" ++ toString okworld.cbTools.length ++ " tools)"]
            else []) ++
           (if okcfg.PG_MCP_ACTIVE then
              ["PostgreSQL MCP (" ++ toString okworld.pgTools.length ++ " tools)"]
            else []))] :=
  C3_tools_aggregation okcfg okworld AppState.initial rfl

/-! ### C4 -/

theorem init_agent_ok_fresh (cfg : Config) (w : World) (s : AppState)
    (hok : (init_agent cfg w s).result = .ok ()) :
    (∃ a, (init_agent cfg w s).state.agent = some a) ∧
    (∀ a, (init_agent cfg w s).state.agent = some a → s.nextId ≤ a.id) ∧
    (∀ i, (init_agent cfg w s).state.cb_mcp_client = some i → s.nextId ≤ i) ∧
    (∀ i, (init_agent cfg w s).state.pg_mcp_client = some i → s.nextId ≤ i) := by
  rcases hc1 : closeOne w s.cb_mcp_client with ⟨t1, r1⟩
  rcases hc2 : closeOne w s.pg_mcp_client with ⟨t2, r2⟩
  cases r1 with
  | error e => simp [init_agent, hc1] at hok
  | ok u =>
  cases u
  cases r2 with
  | error e => simp [init_agent, hc1, hc2] at hok
  | ok u =>
  cases u
  cases hCB : cfg.CB_MCP_ACTIVE <;> cases hPG : cfg.PG_MCP_ACTIVE <;>
    cases hccb : w.connectCB <;> cases hcpg : w.connectPG <;>
    cases hbp : w.basePromptFile <;> cases hcp : w.cbPromptFile <;>
    cases hac : w.agentCtor <;>
    simp_all [init_agent, load_system_prompt] <;> omega

/-- C4: the reset action re-runs the full `init_agent` transition (its
resulting state is exactly `init_agent`'s), and when it succeeds from a
state whose instance identities are all below the allocation counter,
the new agent and both new client handles are distinct from the previous
instances even under an unchanged configuration. -/
theorem C4_reset_rebuilds (cfg : Config) (w : World) (s : AppState)
    (hids : idsBelow s) (hok : (init_agent cfg w s).result = .ok ()) :
    (on_reset_action cfg w s).1 = (init_agent cfg w s).state ∧
    (∃ a, (on_reset_action cfg w s).1.agent = some a) ∧
    (∀ a a0, (on_reset_action cfg w s).1.agent = some a →
      s.agent = some a0 → a ≠ a0) ∧
    (∀ i i0, (on_reset_action cfg w s).1.cb_mcp_client = some i →
      s.cb_mcp_client = some i0 → i ≠ i0) ∧
    (∀ i i0, (on_reset_action cfg w s).1.pg_mcp_client = some i →
      s.pg_mcp_client = some i0 → i ≠ i0) := by
  obtain ⟨hone, hfa, hfc, hfp⟩ := init_agent_ok_fresh cfg w s hok
  obtain ⟨hia, hic, hip⟩ := hids
  have hst : (on_reset_action cfg w s).1 = (init_agent cfg w s).state := by
    simp [on_reset_action, hok]
  refine ⟨hst, ?_, ?_, ?_, ?_⟩
  · rw [hst]; exact hone
  · intro a a0 ha ha0 hcontra
    rw [hst] at ha
    have h1 := hfa a ha
    have h2 := hia a0 ha0
    rw [hcontra] at h1
    omega
  · intro i i0 hi hi0 hcontra
    rw [hst] at hi
    have h1 := hfc i hi
    have h2 := hic i0 hi0
    omega
  · intro i i0 hi hi0 hcontra
    rw [hst] at hi
    have h1 := hfp i hi
    have h2 := hip i0 hi0
    omega

def c4state : AppState :=
  ⟨some ⟨2, "DBAgent", "Database Expert", ["BASE\n\nCB"], ["t1", "t2", "t3"]⟩,
   some 0, some 1, 3⟩

theorem C4_reset_rebuilds_witness :
    (on_reset_action okcfg okworld c4state).1 = (init_agent okcfg okworld c4state).state ∧
    (∃ a, (on_reset_action okcfg okworld c4state).1.agent = some a) ∧
    (∀ a a0, (on_reset_action okcfg okworld c4state).1.agent = some a →
      c4state.agent = some a0 → a ≠ a0) ∧
    (∀ i i0, (on_reset_action okcfg okworld c4state).1.cb_mcp_client = some i →
      c4state.cb_mcp_client = some i0 → i ≠ i0) ∧
    (∀ i i0, (on_reset_action okcfg okworld c4state).1.pg_mcp_client = some i →
      c4state.pg_mcp_client = some i0 → i ≠ i0) :=
  C4_reset_rebuilds okcfg okworld c4state
    ⟨fun a h => by have h' := Option.some.inj h; subst h'; decide,
     fun i h => by have h' := Option.some.inj h; subst h'; decide,
     fun i h => by have h' := Option.some.inj h; subst h'; decide⟩
    rfl

/-! ### C5 -/

def c5state : AppState :=
  ⟨some ⟨2, "DBAgent", "Database Expert", ["BASE"], ["t1"]⟩, some 0, some 1, 3⟩

def c5world : World :=
  ⟨fun _ => .ok, .ok (), .ok (), ["t1"], [],
   some "BASE", none, .ok (),
   fun _ text => if text = "boom" then .error "model exploded" else .ok (some "fine")⟩

/-- C5: when `agent.run` raises, `on_message` catches the exception,
sends exactly one "Error: ..." message, and leaves the process-wide
state unchanged, so a subsequent message is handled normally by the very
same agent. -/
theorem C5_run_error_caught (w : World) (s : AppState) (a : AgentObj)
    (t1 t2 e c : String) (ha : s.agent = some a)
    (herr : w.runBehavior a.id t1 = .error e)
    (hok2 : w.runBehavior a.id t2 = .ok (some c)) (hc : c ≠ "") :
    on_message w s t1 = (s, [.agentRunCall a.id t1], ["Error: " ++ e]) ∧
    on_message w (on_message w s t1).1 t2 = (s, [.agentRunCall a.id t2], [c]) := by
  have h1 : on_message w s t1 = (s, [.agentRunCall a.id t1], ["Error: " ++ e]) := by
    simp [on_message, ha, herr]
  refine ⟨h1, ?_⟩
  rw [h1]
  simp [on_message, ha, hok2, hc]

theorem C5_run_error_caught_witness :
    on_message c5world c5state "boom" =
      (c5state, [.agentRunCall 2 "boom"], ["Error: model exploded"]) ∧
    on_message c5world (on_message c5world c5state "boom").1 "again" =
      (c5state, [.agentRunCall 2 "again"], ["fine"]) :=
  C5_run_error_caught c5world c5state
    ⟨2, "DBAgent", "Database Expert", ["BASE"], ["t1"]⟩
    "boom" "again" "model exploded" "fine" rfl rfl rfl (by decide)

/-! ### C6 -/

def c6state : AppState := ⟨none, some 0, some 1, 2⟩

/-- C6: while the `agent` global is null, `on_message` sends the fixed
not-ready notice, makes no external call (empty trace), and leaves the
state unchanged. -/
theorem C6_not_ready_notice (w : World) (s : AppState) (text : String)
    (h : s.agent = none) :
    on_message w s text = (s, [], ["Agent not ready. Please refresh the page."]) := by
  simp [on_message, h]

theorem C6_not_ready_notice_witness :
    on_message c5world c6state "hello" =
      (c6state, [], ["Agent not ready. Please refresh the page."]) :=
  C6_not_ready_notice c5world c6state "hello" rfl

/-! ### C7 -/

def c7world : World :=
  ⟨fun i => if i = 0 then .runtimeError "Attempted to exit cancel scope" else .ok,
   .ok (), .ok (), [], [], some "BASE", none, .ok (), fun _ _ => .ok none⟩

def c7state : AppState :=
  ⟨some ⟨2, "DBAgent", "Database Expert", ["BASE"], []⟩, some 0, some 1, 3⟩

/-- C7: cleanup never raises for a null or already-closed handle — a null
handle is skipped without any close call, a RuntimeError raised by close
is caught and discarded, and `on_chat_end` then leaves both client
globals null. -/
theorem C7_close_idempotent (w : World) (s : AppState) (i : Nat) (m : String)
    (hrt : w.closeOutcome i = CloseOutcome.runtimeError m)
    (hclose : ∀ j m', w.closeOutcome j ≠ CloseOutcome.otherError m') :
    closeOne w none = ([], .ok ()) ∧
    closeOne w (some i) = ([.closeCall i], .ok ()) ∧
    (on_chat_end w s).2.2 = .ok () ∧
    (on_chat_end w s).1.cb_mcp_client = none ∧
    (on_chat_end w s).1.pg_mcp_client = none := by
  have hcb := closeOne_snd_ok w s.cb_mcp_client hclose
  have hpg := closeOne_snd_ok w s.pg_mcp_client hclose
  rcases hc1 : closeOne w s.cb_mcp_client with ⟨u1, r1⟩
  rcases hc2 : closeOne w s.pg_mcp_client with ⟨u2, r2⟩
  rw [hc1] at hcb
  rw [hc2] at hpg
  simp only at hcb hpg
  subst hcb hpg
  refine ⟨rfl, by simp [closeOne, hrt], ?_, ?_, ?_⟩ <;>
    simp [on_chat_end, hc1, hc2]

theorem C7_close_idempotent_witness :
    closeOne c7world none = ([], .ok ()) ∧
    closeOne c7world (some 0) = ([.closeCall 0], .ok ()) ∧
    (on_chat_end c7world c7state).2.2 = .ok () ∧
    (on_chat_end c7world c7state).1.cb_mcp_client = none ∧
    (on_chat_end c7world c7state).1.pg_mcp_client = none :=
  C7_close_idempotent c7world c7state 0 "Attempted to exit cancel scope" rfl
    (fun j m' h => by
      by_cases hj : j = 0 <;> simp [c7world, hj] at h)

/-! ### C8 -/

def c8worldMissing : World :=
  ⟨fun _ => .ok, .ok (), .ok (), ["t1"], ["t2"],
   none, some "CB", .ok (), fun _ _ => .ok none⟩

def c8worldBoth : World :=
  ⟨fun _ => .ok, .ok (), .ok (), ["t1"], ["t2"],
   some "BASE", some "CB", .ok (), fun _ _ => .ok none⟩

def c8worldBaseOnly : World :=
  ⟨fun _ => .ok, .ok (), .ok (), ["t1"], ["t2"],
   some "BASE", none, .ok (), fun _ _ => .ok none⟩

/-- C8: the prompt loader returns base + blank-line separator + optional
Couchbase file when CB is active and the optional file exists; returns
exactly the base content when the optional file is missing; and a
missing base file is an error that makes `init_agent` unable to
succeed. -/
theorem C8_prompt_loader (cfg cfg' : Config) (w1 w2 w3 : World) (s : AppState)
    (b c : String)
    (h1 : w1.basePromptFile = none)
    (h2b : w2.basePromptFile = some b) (h2a : cfg.CB_MCP_ACTIVE = true)
    (h2c : w2.cbPromptFile = some c)
    (h3b : w3.basePromptFile = some b) (h3c : w3.cbPromptFile = none) :
    load_system_prompt cfg w1 = .error "FileNotFoundError: system_prompt.txt" ∧
    load_system_prompt cfg w2 = .ok (b ++ "\n\n" ++ c) ∧
    load_system_prompt cfg w3 = .ok b ∧
    (init_agent cfg' w1 s).result ≠ .ok () := by
  refine ⟨by simp [load_system_prompt, h1], by simp [load_system_prompt, h2b, h2a, h2c],
    ?_, ?_⟩
  · cases hCB : cfg.CB_MCP_ACTIVE <;> simp [load_system_prompt, h3b, h3c, hCB]
  · intro hok
    rcases hc1 : closeOne w1 s.cb_mcp_client with ⟨u1, r1⟩
    rcases hc2 : closeOne w1 s.pg_mcp_client with ⟨u2, r2⟩
    cases r1 with
    | error e => simp [init_agent, hc1] at hok
    | ok u =>
    cases u
    cases r2 with
    | error e => simp [init_agent, hc1, hc2] at hok
    | ok u =>
    cases u
    cases hCB : cfg'.CB_MCP_ACTIVE <;> cases hPG : cfg'.PG_MCP_ACTIVE <;>
      cases hccb : w1.connectCB <;> cases hcpg : w1.connectPG <;>
      simp_all [init_agent, load_system_prompt]

theorem C8_prompt_loader_witness :
    load_system_prompt okcfg c8worldMissing =
      .error "FileNotFoundError: system_prompt.txt" ∧
    load_system_prompt okcfg c8worldBoth = .ok ("BASE" ++ "\n\n" ++ "CB") ∧
    load_system_prompt okcfg c8worldBaseOnly = .ok "BASE" ∧
    (init_agent okcfg c8worldMissing AppState.initial).result ≠ .ok () :=
  C8_prompt_loader okcfg okcfg c8worldMissing c8worldBoth c8worldBaseOnly
    AppState.initial "BASE" "CB" rfl rfl rfl rfl rfl rfl

/-! ### C9 -/

/-- C9: the exit action terminates the process with exit code 0, sends
only the shutdown notice, and never invokes the teardown path — no
close() call appears in its trace. -/
theorem C9_exit_skips_teardown (s : AppState) :
    (on_exit_action s).exitCode = some 0 ∧
    (∀ i, Ev.closeCall i ∉ (on_exit_action s).trace) ∧
    (on_exit_action s).messages = ["🚪 Shutting down application..."] ∧
    (on_exit_action s).state = s := by
  refine ⟨rfl, ?_, rfl, rfl⟩
  intro i h
  simp [on_exit_action] at h

/-! ### C10 -/

def c10world : World :=
  ⟨fun _ => .ok, .ok (), .ok (), [], [], some "BASE", none, .ok (),
   fun _ text => if text = "null" then .ok none else .ok (some "")⟩

/-- C10: when `agent.run` succeeds but the response content is null or
the empty string, `on_message` sends the fixed "No response generated."
fallback instead of an empty message. -/
theorem C10_empty_response_fallback (w : World) (s : AppState) (a : AgentObj)
    (t1 t2 : String) (ha : s.agent = some a)
    (h1 : w.runBehavior a.id t1 = .ok none)
    (h2 : w.runBehavior a.id t2 = .ok (some "")) :
    on_message w s t1 = (s, [.agentRunCall a.id t1], ["No response generated."]) ∧
    on_message w s t2 = (s, [.agentRunCall a.id t2], ["No response generated."]) := by
  constructor <;> simp [on_message, ha, h1, h2]

theorem C10_empty_response_fallback_witness :
    on_message c10world c5state "null" =
      (c5state, [.agentRunCall 2 "null"], ["No response generated."]) ∧
    on_message c10world c5state "empty" =
      (c5state, [.agentRunCall 2 "empty"], ["No response generated."]) :=
  C10_empty_response_fallback c10world c5state
    ⟨2, "DBAgent", "Database Expert", ["BASE"], ["t1"]⟩
    "null" "empty" rfl rfl rfl
